import Mathlib

/-!
Shallow embedding of the wallpaperbot repository (wallpaperbot/image_ops.py,
dedup.py, db.py, cli.py, utils.py, adapters/stub_sources.py) and proofs about
its specified behaviour.  Machine integers are modelled as `Int`, Python floats
as `Rat`, Python `None`/optional values as `Option`, and raising code as
`Except`.
-/

namespace WallpaperBot

instance {ε α : Type _} [DecidableEq ε] [DecidableEq α] : DecidableEq (Except ε α) := fun a b =>
  match a, b with
  | .error e, .error f =>
    match decEq e f with
    | isTrue h => isTrue (h ▸ rfl)
    | isFalse h => isFalse (fun hh => h (Except.error.inj hh))
  | .error _, .ok _ => isFalse (fun hh => Except.noConfusion hh)
  | .ok _, .error _ => isFalse (fun hh => Except.noConfusion hh)
  | .ok a, .ok b =>
    match decEq a b with
    | isTrue h => isTrue (h ▸ rfl)
    | isFalse h => isFalse (fun hh => h (Except.ok.inj hh))

/-- Result record returned by the suitability evaluator
(`image_ops.SuitabilityResult`). -/
structure SuitabilityResult where
  category : String
  score : ℚ
  reason : String
deriving DecidableEq, Repr

/-- `image_ops.aspect_ratio`: `width / height`.  Python raises
`ZeroDivisionError` when `height == 0`; that is modelled as an `Except` error. -/
def aspect_ratio (width height : ℤ) : Except String ℚ :=
  if height = 0 then Except.error "ZeroDivisionError"
  else Except.ok ((width : ℚ) / (height : ℚ))

/-- `image_ops.within_tolerance`: `abs(value - target) <= target * tolerance`. -/
def within_tolerance (value target tolerance : ℚ) : Bool :=
  decide (|value - target| ≤ target * tolerance)

/-- `image_ops.evaluate_suitability`, translated clause for clause.  The guard
on the image dimensions comes first; then both aspect ratios are computed (the
target one may raise, propagated via `Except`); then the ordered decision list
perfect / croppable / upscalable / reject. -/
def evaluate_suitability (img_size target_size : ℤ × ℤ) (tolerance : ℚ)
    (allow_crop allow_upscale : Bool) : Except String SuitabilityResult :=
  let iw := img_size.1
  let ih := img_size.2
  let tw := target_size.1
  let th := target_size.2
  if iw ≤ 0 ∨ ih ≤ 0 then Except.ok ⟨"reject", 0, "Invalid dimensions"⟩
  else
    match aspect_ratio iw ih with
    | Except.error e => Except.error e
    | Except.ok image_ar =>
      match aspect_ratio tw th with
      | Except.error e => Except.error e
      | Except.ok target_ar =>
        if tw ≤ iw ∧ th ≤ ih ∧ within_tolerance image_ar target_ar tolerance = true then
          Except.ok ⟨"perfect", 1, "Matches target within tolerance"⟩
        else if tw ≤ iw ∧ th ≤ ih ∧ allow_crop = true then
          Except.ok ⟨"croppable", 4/5, "Larger than target; center-crop possible"⟩
        else if allow_upscale = true ∧ within_tolerance image_ar target_ar tolerance = true then
          Except.ok ⟨"upscalable", 2/5, "Below target but aspect ratio matches"⟩
        else
          Except.ok ⟨"reject", 0, "Insufficient resolution or mismatched ratio"⟩

/-- `dedup.is_duplicate`: true when the content hash is in the existing-hash
set, otherwise true when a perceptual hash is supplied and is in the set.
The Python `set[str]` is modelled as a `List String` with set membership. -/
def is_duplicate (existing_hashes : List String) (sha256 : String)
    (phash : Option String) : Bool :=
  if sha256 ∈ existing_hashes then true
  else
    match phash with
    | some p => decide (p ∈ existing_hashes)
    | none => false

/-- `dedup.compute_phash`: opens the image at a path and hashes it, returning
`None` on any decode failure.  The decode attempt (`Image.open`) is an input
oracle of type `Except`, the hashing function `imagehash.phash ∘ str` an
abstract function on decoded images. -/
def compute_phash {Img : Type} (openResult : Except String Img)
    (phashFn : Img → String) : Option String :=
  match openResult with
  | Except.ok img => some (phashFn img)
  | Except.error _ => none

/-- `models.Candidate`: a discovered, not-yet-downloaded wallpaper reference. -/
structure Candidate where
  id : String
  source : String
  title : String
  source_page_url : String
  direct_url : Option String := none
  author : Option String := none
  license : Option String := none
  width : Option ℤ := none
  height : Option ℤ := none
  tags : List String := []
  unsupported_reason : Option String := none
deriving DecidableEq, Repr

/-- `models.DownloadInfo`: the record of one downloaded and accepted image.
`file_path` is a path string, `downloaded_at` the ISO timestamp string. -/
structure DownloadInfo where
  candidate : Candidate
  file_path : String
  sha256 : String
  phash : Option String
  width : ℤ
  height : ℤ
  file_size : ℤ
  suitability : String
  suitability_reason : String
  downloaded_at : String
deriving DecidableEq, Repr

/-- `cli.candidate_filename`: the stem is the title with spaces replaced by
hyphens when the title is non-empty (Python string truthiness), otherwise the
candidate id; the result is always `f"{candidate.id}-{stem}.jpg"`. -/
def candidate_filename (candidate : Candidate) : String :=
  let stem := if candidate.title ≠ "" then candidate.title.replace " " "-" else candidate.id
  candidate.id ++ "-" ++ stem ++ ".jpg"

/-- `adapters/stub_sources.DisallowedAdapter`: name, homepage and a
human-readable reason why the source cannot be used. -/
structure DisallowedAdapter where
  name : String
  homepage : String
  reason : String
deriving DecidableEq, Repr

/-- `DisallowedAdapter.discover`: consults the robots checker for the homepage
(the network result is the `allowed` oracle), then — with the check's result
unused, both conditional arms giving `self.reason` — returns a single
candidate whose id/title derive from the adapter name and which carries the
configured reason and no direct URL. -/
def DisallowedAdapter.discover (a : DisallowedAdapter) (allowed : Bool)
    (query : String) (page_limit : ℤ) : List Candidate :=
  let reason := if allowed = false then a.reason else a.reason
  [{ id := a.name ++ "-unsupported"
     source := a.name
     title := a.name ++ " unsupported"
     source_page_url := a.homepage
     unsupported_reason := some reason }]

/-- One row of the `images` table of `db.py`, with the columns in schema order
(`rid` models the `INTEGER PRIMARY KEY AUTOINCREMENT` id). -/
structure ImageRow where
  rid : ℕ
  source : String
  source_page_url : String
  direct_url : Option String
  title : String
  author : Option String
  license : Option String
  width : ℤ
  height : ℤ
  file_size : ℤ
  sha256 : String
  phash : Option String
  file_path : String
  suitability : String
  suitability_reason : String
  downloaded_at : String
  query : Option String
deriving DecidableEq, Repr

/-- The state of the `images` table: its rows in insertion order plus the next
auto-increment id. -/
structure Database where
  rows : List ImageRow
  nextId : ℕ
deriving DecidableEq, Repr

/-- The row `Database.record_download` inserts, column for column from the
`DownloadInfo` and the optional query string. -/
def rowOfInfo (rid : ℕ) (info : DownloadInfo) (query : Option String) : ImageRow :=
  { rid := rid
    source := info.candidate.source
    source_page_url := info.candidate.source_page_url
    direct_url := info.candidate.direct_url
    title := info.candidate.title
    author := info.candidate.author
    license := info.candidate.license
    width := info.width
    height := info.height
    file_size := info.file_size
    sha256 := info.sha256
    phash := info.phash
    file_path := info.file_path
    suitability := info.suitability
    suitability_reason := info.suitability_reason
    downloaded_at := info.downloaded_at
    query := query }

/-- Whether a row with the given content hash exists (the `sha256 TEXT NOT
NULL UNIQUE` column of the schema). -/
def shaExists (db : Database) (sha : String) : Bool :=
  db.rows.any (fun r => r.sha256 = sha)

/-- `Database.record_download`: `INSERT OR IGNORE` against the UNIQUE
constraint on `sha256` — when the content hash already exists the statement is
ignored and the table is unchanged; otherwise the new row is appended. -/
def record_download (db : Database) (info : DownloadInfo) (query : Option String) :
    Database :=
  if shaExists db info.sha256 then db
  else { rows := db.rows ++ [rowOfInfo db.nextId info query], nextId := db.nextId + 1 }

/-- Number of stored rows carrying a given content hash. -/
def countSha (db : Database) (sha : String) : ℕ :=
  (db.rows.filter (fun r => r.sha256 = sha)).length

/-- A sample accepted download, used by concrete instantiations below. -/
def sampleInfo : DownloadInfo :=
  { candidate := ⟨"abc", "unsplash", "t", "page", none, none, none, none, none, [], none⟩
    file_path := "out/unsplash/abc-t.jpg"
    sha256 := "deadbeef"
    phash := some "ph"
    width := 7680
    height := 1440
    file_size := 10
    suitability := "perfect"
    suitability_reason := "Matches target within tolerance"
    downloaded_at := "2024-01-01T00:00:00" }

/-- The freshly initialized empty database. -/
def emptyDb : Database := { rows := [], nextId := 1 }

/-- The configuration fields `cli.download_candidate` consults. -/
structure Config where
  target_resolution : ℤ × ℤ
  tolerance : ℚ
  allow_crop : Bool
  allow_upscale : Bool
deriving DecidableEq, Repr

/-- Observable file-system effects of the download pipeline, in order. -/
inductive FetchEvent where
  | mkdirParents (dir : String)
  | writeBytes (path : String)
  | writeMeta (path : String)
deriving DecidableEq, Repr

/-- Result of one `download_candidate` call: the returned value (`Except` for
exceptions escaping the call, `Option` for the silent-drop returns), the file
effects performed, and the in-run hash set after the call. -/
structure FetchOutcome where
  result : Except String (Option DownloadInfo)
  events : List FetchEvent
  hashes : List String
deriving DecidableEq, Repr

/-- The effectful operations `cli.download_candidate` invokes, as oracles:
the HTTP GET (with `raise_for_status`), SHA-256 over the body bytes, decoding
the body to a pixel size (`Image.open` on the bytes), and re-opening the
written file to compute its perceptual hash (`Image.open` plus
`imagehash.phash`; decode failures surface as `Except.error`). -/
structure FetchEnv where
  httpGet : String → Except String (List ℕ)
  sha256Of : List ℕ → String
  decodeSize : List ℕ → Except String (ℤ × ℤ)
  phashOfFile : String → Except String String

/-- Python `set.add`: no-op when the element is already present. -/
def addHash (hashes : List String) (h : String) : List String :=
  if h ∈ hashes then hashes else hashes ++ [h]

/-- `Path.with_suffix(".json")` on the `.jpg` paths the pipeline writes. -/
def withSuffixJson (p : String) : String := p.dropRight 4 ++ ".json"

/-- The part of `cli.download_candidate` after the pre-write duplicate gate:
decode the body for its size, score suitability, drop rejects, write the file,
re-open it for the perceptual hash (failures propagate), write the sidecar
metadata, extend the hash set, and return the `DownloadInfo`. -/
def afterDupCheck (env : FetchEnv) (candidate : Candidate) (cfg : Config)
    (output_dir : String) (existing_hashes : List String) (now : String)
    (data : List ℕ) (sha : String) : FetchOutcome :=
  match env.decodeSize data with
  | Except.error e => ⟨Except.error e, [], existing_hashes⟩
  | Except.ok wh =>
    match evaluate_suitability wh cfg.target_resolution cfg.tolerance
        cfg.allow_crop cfg.allow_upscale with
    | Except.error e => ⟨Except.error e, [], existing_hashes⟩
    | Except.ok suitability =>
      if suitability.category = "reject" then ⟨Except.ok none, [], existing_hashes⟩
      else
        let target_dir := output_dir ++ "/" ++ candidate.source
        let file_path := target_dir ++ "/" ++ candidate_filename candidate
        let preEvents := [FetchEvent.mkdirParents target_dir, FetchEvent.writeBytes file_path]
        match env.phashOfFile file_path with
        | Except.error e => ⟨Except.error e, preEvents, existing_hashes⟩
        | Except.ok phash_value =>
          let info : DownloadInfo :=
            { candidate := candidate
              file_path := file_path
              sha256 := sha
              phash := some phash_value
              width := wh.1
              height := wh.2
              file_size := (data.length : ℤ)
              suitability := suitability.category
              suitability_reason := suitability.reason
              downloaded_at := now }
          let events := preEvents ++ [FetchEvent.writeMeta (withSuffixJson file_path)]
          let hashes1 := addHash existing_hashes sha
          let hashes2 := if phash_value ≠ "" then addHash hashes1 phash_value else hashes1
          ⟨Except.ok (some info), events, hashes2⟩

/-- `cli.download_candidate`: no direct URL is a silent no-op; the HTTP GET may
fail; the content hash is checked against the in-run hash set with
`is_duplicate(existing_hashes, sha256, None)` — note the absent perceptual
hash — and on a hit the candidate is silently dropped; otherwise the pipeline
continues with `afterDupCheck`. -/
def download_candidate (env : FetchEnv) (candidate : Candidate) (cfg : Config)
    (output_dir : String) (existing_hashes : List String) (now : String) :
    FetchOutcome :=
  match candidate.direct_url with
  | none => ⟨Except.ok none, [], existing_hashes⟩
  | some url =>
    match env.httpGet url with
    | Except.error e => ⟨Except.error e, [], existing_hashes⟩
    | Except.ok data =>
      let sha := env.sha256Of data
      if is_duplicate existing_hashes sha none then ⟨Except.ok none, [], existing_hashes⟩
      else afterDupCheck env candidate cfg output_dir existing_hashes now data sha

/-- A fetch environment whose oracles all succeed, returning an image exactly
matching the target canvas. -/
def fetchEnvOk : FetchEnv :=
  { httpGet := fun _ => Except.ok [1, 2, 3]
    sha256Of := fun _ => "deadbeef"
    decodeSize := fun _ => Except.ok (7680, 1440)
    phashOfFile := fun _ => Except.ok "ph" }

/-- Same environment except that re-opening the written file for the
perceptual hash fails to decode. -/
def fetchEnvBadDecode : FetchEnv :=
  { httpGet := fun _ => Except.ok [1, 2, 3]
    sha256Of := fun _ => "deadbeef"
    decodeSize := fun _ => Except.ok (7680, 1440)
    phashOfFile := fun _ => Except.error "cannot identify image file" }

/-- A downloadable candidate (empty title, so the file name falls back to the
id as stem). -/
def fetchCand : Candidate :=
  { id := "abc", source := "unsplash", title := "", source_page_url := "page",
    direct_url := some "u" }

/-- A configuration targeting the triple-monitor canvas with zero tolerance. -/
def fetchCfg : Config := ⟨(7680, 1440), 0, true, false⟩

/-- Round half to even, as Python's fixed-point float formatting does at the
last kept digit. -/
def roundHalfEven (q : ℚ) : ℤ :=
  let f := ⌊q⌋
  if q - f < 1/2 then f
  else if (1:ℚ)/2 < q - f then f + 1
  else if f % 2 = 0 then f else f + 1

/-- Python's `f"{x:.1f}"`: the value rounded to one decimal digit, rendered as
`<integer part>.<single digit>`. -/
def formatFix1 (q : ℚ) : String :=
  let m := roundHalfEven (q * 10)
  toString (m / 10) ++ "." ++ toString (m % 10)

/-- The `for unit in ["B", "KB", "MB", "GB"]` loop of `utils.human_size`:
return at the first unit where the running value is below 1024, else divide by
1024 and continue; falling out of the loop renders in TB. -/
def human_size_go : ℚ → List String → String
  | q, [] => formatFix1 q ++ " " ++ "TB"
  | q, u :: rest =>
    if q < 1024 then formatFix1 q ++ " " ++ u else human_size_go (q / 1024) rest

/-- `utils.human_size`. -/
def human_size (num_bytes : ℤ) : String :=
  human_size_go (num_bytes : ℚ) ["B", "KB", "MB", "GB"]

/-- Modelled from the spec wording of C8, for comparison against
`human_size`: the unit index chosen so that the byte count scaled by
successive division by 1024 is below 1024, capped at TB (index 4). -/
def specUnit (n : ℤ) : ℕ :=
  if (n:ℚ) < 1024 then 0
  else if (n:ℚ)/1024 < 1024 then 1
  else if (n:ℚ)/1024/1024 < 1024 then 2
  else if (n:ℚ)/1024/1024/1024 < 1024 then 3
  else 4

/-- The byte count scaled for the given unit index. -/
def scaledValue (n : ℤ) : ℕ → ℚ
  | 0 => (n:ℚ)
  | 1 => (n:ℚ)/1024
  | 2 => (n:ℚ)/1024/1024
  | 3 => (n:ℚ)/1024/1024/1024
  | _ => (n:ℚ)/1024/1024/1024/1024

/-- The unit string for a unit index. -/
def unitName : ℕ → String
  | 0 => "B"
  | 1 => "KB"
  | 2 => "MB"
  | 3 => "GB"
  | _ => "TB"

theorem shaExists_iff_countSha_pos (db : Database) (sha : String) :
    shaExists db sha = true ↔ 0 < countSha db sha := by
  simp [shaExists, countSha, List.any_eq_true, List.length_pos, List.filter_eq_nil_iff]

/-- Claim C1: the claim says the input (9000, 1700) against target (7680, 1440)
with tolerance 0.2, crop allowed and upscaling disallowed is classified
`croppable`.  The code actually classifies it `perfect` with score 1.0: the
aspect-ratio difference |9000/1700 - 7680/1440| = 2/51 is within the tolerance
bound (7680/1440)·0.2 = 16/15, so the first branch of the ordered decision list
fires.  The second conjunct evaluates the code at the input of the repository's
own test for this behaviour (test_croppable_when_larger expects `croppable`),
showing the code also returns `perfect` there, contradicting its own test. -/
theorem c1_code_eval :
    evaluate_suitability (9000, 1700) (7680, 1440) (1/5) true false =
      Except.ok ⟨"perfect", 1, "Matches target within tolerance"⟩ ∧
    evaluate_suitability (7000, 1300) (5760, 1080) (1/5) true false =
      Except.ok ⟨"perfect", 1, "Matches target within tolerance"⟩ := by
  constructor <;>
    norm_num [evaluate_suitability, aspect_ratio, within_tolerance, abs_le]

/-- Counterexample to claim C2: for a candidate with id `abc` and empty title,
the code produces `abc-abc.jpg`, not the claimed `abc.jpg`: the `<id>-` prefix
is always present, the empty-title fallback only replaces the stem. -/
theorem c2_counterexample :
    (⟨"abc", "unsplash", "", "page", none, none, none, none, none, [], none⟩ :
        Candidate).title = "" ∧
    candidate_filename
        ⟨"abc", "unsplash", "", "page", none, none, none, none, none, [], none⟩ =
      "abc-abc.jpg" ∧
    "abc-abc.jpg" ≠ "abc" ++ ".jpg" := by
  refine ⟨rfl, rfl, ?_⟩
  decide

/-- Claim C2 as amended: for an empty title the file name is
`<id>-<id>.jpg` (the id doubles as the stem after the ever-present `<id>-`
prefix); for a non-empty title it is `<id>-<title with spaces as hyphens>.jpg`. -/
theorem c2_amended_filename (candidate : Candidate) :
    (candidate.title = "" →
      candidate_filename candidate = candidate.id ++ "-" ++ candidate.id ++ ".jpg") ∧
    (candidate.title ≠ "" →
      candidate_filename candidate =
        candidate.id ++ "-" ++ candidate.title.replace " " "-" ++ ".jpg") := by
  constructor
  · intro h
    simp [candidate_filename, h]
  · intro h
    simp [candidate_filename, h]

/-- Witness for C2: the amended name at an empty-title and a non-empty-title
candidate. -/
theorem c2_witness :
    candidate_filename
        ⟨"abc", "unsplash", "", "page", none, none, none, none, none, [], none⟩ =
      "abc" ++ "-" ++ "abc" ++ ".jpg" ∧
    candidate_filename
        ⟨"abc", "unsplash", "red sunset", "page", none, none, none, none, none, [], none⟩ =
      "abc" ++ "-" ++ ("red sunset".replace " " "-") ++ ".jpg" :=
  ⟨(c2_amended_filename
      ⟨"abc", "unsplash", "", "page", none, none, none, none, none, [], none⟩).1 rfl,
   (c2_amended_filename
      ⟨"abc", "unsplash", "red sunset", "page", none, none, none, none, none, [], none⟩).2
     (by decide)⟩

/-- Counterexample to claim C3: with every step succeeding except the decode
of the just-written file, the pipeline raises the decode error out of
`download_candidate` — it does not return a `DownloadInfo` with an absent
perceptual hash.  The events show the gate was passed and the file written
before the failure. -/
theorem c3_counterexample :
    download_candidate fetchEnvBadDecode fetchCand fetchCfg "out" [] "now" =
      ⟨Except.error "cannot identify image file",
        [FetchEvent.mkdirParents "out/unsplash",
          FetchEvent.writeBytes "out/unsplash/abc-abc.jpg"], []⟩ := by
  simp [download_candidate, afterDupCheck, is_duplicate, evaluate_suitability,
    aspect_ratio, within_tolerance, candidate_filename, fetchEnvBadDecode,
    fetchCand, fetchCfg]

/-- Claim C3 as amended: a decode failure while computing the perceptual hash
of the just-written file propagates out of `download_candidate` as an
exception (caught only by the per-candidate handler of the fetch loop), so no
`DownloadInfo` is produced at all; the standalone `dedup.compute_phash` helper
does map decode failures to an absent hash, but the pipeline does not use it. -/
theorem c3_amended_phash_failure (env : FetchEnv) (candidate : Candidate)
    (cfg : Config) (output_dir : String) (existing_hashes : List String)
    (now : String) (url : String) (data : List ℕ) (wh : ℤ × ℤ)
    (suit : SuitabilityResult) (e : String)
    (hurl : candidate.direct_url = some url)
    (hget : env.httpGet url = Except.ok data)
    (hdup : is_duplicate existing_hashes (env.sha256Of data) none = false)
    (hdec : env.decodeSize data = Except.ok wh)
    (hsuit : evaluate_suitability wh cfg.target_resolution cfg.tolerance
      cfg.allow_crop cfg.allow_upscale = Except.ok suit)
    (hcat : ¬ suit.category = "reject")
    (hph : env.phashOfFile (output_dir ++ "/" ++ candidate.source ++ "/" ++
      candidate_filename candidate) = Except.error e) :
    (download_candidate env candidate cfg output_dir existing_hashes now).result =
      Except.error e ∧
    compute_phash (Except.error e) (fun _ : Unit => "ph") = none := by
  refine ⟨?_, rfl⟩
  simp only [download_candidate, hurl, hget, hdup, Bool.false_eq_true, if_false,
    afterDupCheck, hdec, hsuit, if_neg hcat, hph]

/-- Witness for C3: the amended behaviour at the concrete failing environment. -/
theorem c3_witness :
    (download_candidate fetchEnvBadDecode fetchCand fetchCfg "out" [] "now").result =
      Except.error "cannot identify image file" ∧
    compute_phash (Except.error "cannot identify image file")
      (fun _ : Unit => "ph") = none :=
  c3_amended_phash_failure fetchEnvBadDecode fetchCand fetchCfg "out" [] "now"
    "u" [1, 2, 3] (7680, 1440) ⟨"perfect", 1, "Matches target within tolerance"⟩
    "cannot identify image file" rfl rfl rfl rfl
    (by simp [evaluate_suitability, aspect_ratio, within_tolerance, fetchCfg])
    (by decide) rfl

/-- Claim C4: every result `evaluate_suitability` returns is one of the four
category/score pairs perfect/1.0, croppable/0.8, upscalable/0.4, reject/0.0,
and any non-positive image dimension yields the reject/0.0 result. -/
theorem c4_score_range (img_size target_size : ℤ × ℤ) (tolerance : ℚ)
    (allow_crop allow_upscale : Bool) :
    (∀ r, evaluate_suitability img_size target_size tolerance allow_crop allow_upscale =
        Except.ok r →
      (r.category = "perfect" ∧ r.score = 1) ∨
      (r.category = "croppable" ∧ r.score = 4/5) ∨
      (r.category = "upscalable" ∧ r.score = 2/5) ∨
      (r.category = "reject" ∧ r.score = 0)) ∧
    (img_size.1 ≤ 0 ∨ img_size.2 ≤ 0 →
      evaluate_suitability img_size target_size tolerance allow_crop allow_upscale =
        Except.ok ⟨"reject", 0, "Invalid dimensions"⟩) := by
  constructor
  · intro r h
    simp only [evaluate_suitability] at h
    split at h
    · cases Except.ok.inj h
      simp
    · split at h
      · exact Except.noConfusion h
      · split at h
        · exact Except.noConfusion h
        · split at h
          · cases Except.ok.inj h
            simp
          · split at h
            · cases Except.ok.inj h
              simp
            · split at h
              · cases Except.ok.inj h
                simp
              · cases Except.ok.inj h
                simp
  · intro h
    simp only [evaluate_suitability]
    rw [if_pos h]

/-- Witness for C4: a concrete non-positive width produces the reject/0.0
result, and that result lies in the four-pair output range. -/
theorem c4_witness :
    ((0:ℤ) ≤ 0 ∨ (5:ℤ) ≤ 0) ∧
    evaluate_suitability (0, 5) (10, 10) (1/10) true false =
      Except.ok ⟨"reject", 0, "Invalid dimensions"⟩ ∧
    (((⟨"reject", 0, "Invalid dimensions"⟩ : SuitabilityResult).category = "perfect" ∧
        (⟨"reject", 0, "Invalid dimensions"⟩ : SuitabilityResult).score = 1) ∨
      ((⟨"reject", 0, "Invalid dimensions"⟩ : SuitabilityResult).category = "croppable" ∧
        (⟨"reject", 0, "Invalid dimensions"⟩ : SuitabilityResult).score = 4/5) ∨
      ((⟨"reject", 0, "Invalid dimensions"⟩ : SuitabilityResult).category = "upscalable" ∧
        (⟨"reject", 0, "Invalid dimensions"⟩ : SuitabilityResult).score = 2/5) ∨
      ((⟨"reject", 0, "Invalid dimensions"⟩ : SuitabilityResult).category = "reject" ∧
        (⟨"reject", 0, "Invalid dimensions"⟩ : SuitabilityResult).score = 0)) :=
  ⟨Or.inl le_rfl,
   (c4_score_range (0, 5) (10, 10) (1/10) true false).2 (Or.inl le_rfl),
   (c4_score_range (0, 5) (10, 10) (1/10) true false).1 _
     ((c4_score_range (0, 5) (10, 10) (1/10) true false).2 (Or.inl le_rfl))⟩

/-- Claim C5: recording a `DownloadInfo` whose content hash is already stored
leaves the table unchanged; recording twice equals recording once; and
recording a fresh hash twice leaves exactly one row with that hash. -/
theorem c5_record_idempotent (db : Database) (info : DownloadInfo)
    (query query' : Option String) :
    (shaExists db info.sha256 = true → record_download db info query = db) ∧
    record_download (record_download db info query) info query' =
      record_download db info query ∧
    (shaExists db info.sha256 = false →
      countSha (record_download (record_download db info query) info query')
        info.sha256 = 1) := by
  refine ⟨fun h => by simp [record_download, h], ?_, ?_⟩
  · by_cases h : shaExists db info.sha256 = true
    · simp [record_download, h]
    · have hrec : record_download db info query =
          { rows := db.rows ++ [rowOfInfo db.nextId info query],
            nextId := db.nextId + 1 } := by
        simp [record_download, h]
      have hexists : shaExists (record_download db info query) info.sha256 = true := by
        rw [hrec]
        simp [shaExists, List.any_append, rowOfInfo]
      generalize record_download db info query = db1 at hexists ⊢
      simp [record_download, hexists]
  · intro h
    have hrec : record_download db info query =
        { rows := db.rows ++ [rowOfInfo db.nextId info query],
          nextId := db.nextId + 1 } := by
      simp [record_download, h]
    have hexists : shaExists (record_download db info query) info.sha256 = true := by
      rw [hrec]
      simp [shaExists, List.any_append, rowOfInfo]
    have hzero : countSha db info.sha256 = 0 := by
      by_contra hz
      have hpos : 0 < countSha db info.sha256 := Nat.pos_of_ne_zero hz
      rw [← shaExists_iff_countSha_pos] at hpos
      rw [hpos] at h
      exact Bool.noConfusion h
    generalize hdb1 : record_download db info query = db1 at hexists hrec ⊢
    have hstep : record_download db1 info query' = db1 := by
      simp [record_download, hexists]
    rw [hstep, hrec]
    simp only [countSha, List.filter_append, List.length_append] at hzero ⊢
    rw [hzero]
    simp [rowOfInfo]

/-- Witness for C5: on the empty database and a concrete `DownloadInfo`, the
hash is fresh and recording it twice stores exactly one row with it. -/
theorem c5_witness :
    shaExists emptyDb sampleInfo.sha256 = false ∧
    countSha (record_download (record_download emptyDb sampleInfo none)
        sampleInfo (some "q")) sampleInfo.sha256 = 1 :=
  ⟨rfl, (c5_record_idempotent emptyDb sampleInfo none (some "q")).2.2 rfl⟩

/-- Claim C6: for every query, page limit and robots-check outcome, a stub
adapter's `discover` returns exactly the one candidate carrying the configured
unsupported reason and no direct download URL. -/
theorem c6_stub_discover (a : DisallowedAdapter) (allowed : Bool)
    (query : String) (page_limit : ℤ) :
    a.discover allowed query page_limit =
      [{ id := a.name ++ "-unsupported"
         source := a.name
         title := a.name ++ " unsupported"
         source_page_url := a.homepage
         unsupported_reason := some a.reason }] ∧
    (a.discover allowed query page_limit).length = 1 ∧
    (a.discover allowed query page_limit).all
      (fun c => c.unsupported_reason = some a.reason ∧ c.direct_url = none) = true := by
  refine ⟨?_, rfl, ?_⟩ <;> cases allowed <;> simp [DisallowedAdapter.discover]

/-- Claim C7: `is_duplicate` returns true exactly when the content hash is in
the existing-hash set, or a perceptual hash is supplied and is in the set. -/
theorem c7_is_duplicate_spec (existing_hashes : List String) (sha256 : String)
    (phash : Option String) :
    is_duplicate existing_hashes sha256 phash = true ↔
      (sha256 ∈ existing_hashes ∨ ∃ p, phash = some p ∧ p ∈ existing_hashes) := by
  cases phash <;> simp [is_duplicate]

/-- Witness for C7: concrete evaluation of both directions of the predicate. -/
theorem c7_witness :
    (is_duplicate ["a", "b"] "a" none = true ↔
      ("a" ∈ ["a", "b"] ∨ ∃ p, (none : Option String) = some p ∧ p ∈ ["a", "b"])) ∧
    (is_duplicate ["a", "b"] "c" (some "b") = true ↔
      ("c" ∈ ["a", "b"] ∨ ∃ p, some "b" = some p ∧ p ∈ ["a", "b"])) ∧
    (is_duplicate ["a", "b"] "c" none = true ↔
      ("c" ∈ ["a", "b"] ∨ ∃ p, (none : Option String) = some p ∧ p ∈ ["a", "b"])) :=
  ⟨c7_is_duplicate_spec ["a", "b"] "a" none,
   c7_is_duplicate_spec ["a", "b"] "c" (some "b"),
   c7_is_duplicate_spec ["a", "b"] "c" none⟩

/-- Claim C8: for every non-negative byte count, `human_size` renders the
value scaled for the spec-chosen unit with one decimal digit and that unit's
name; counts of at least 1024⁴ (= 1099511627776) are rendered in TB regardless
of magnitude; and the concrete examples 500 ↦ "500.0 B", 2048 ↦ "2.0 KB". -/
theorem c8_human_size (n : ℤ) (hn : 0 ≤ n) :
    human_size n = formatFix1 (scaledValue n (specUnit n)) ++ " " ++ unitName (specUnit n) ∧
    ((1099511627776:ℤ) ≤ n →
      human_size n = formatFix1 ((n:ℚ)/1024/1024/1024/1024) ++ " " ++ "TB") ∧
    human_size 500 = "500.0 B" ∧
    human_size 2048 = "2.0 KB" := by
  have hp : (0:ℚ) < 1024 := by norm_num
  refine ⟨?_, ?_, ?_, ?_⟩
  · rw [human_size, human_size_go]
    by_cases h0 : (n:ℚ) < 1024
    · rw [if_pos h0]
      simp only [specUnit, if_pos h0, scaledValue, unitName]
    · rw [if_neg h0, human_size_go]
      by_cases h1 : (n:ℚ)/1024 < 1024
      · rw [if_pos h1]
        simp only [specUnit, if_neg h0, if_pos h1, scaledValue, unitName]
      · rw [if_neg h1, human_size_go]
        by_cases h2 : (n:ℚ)/1024/1024 < 1024
        · rw [if_pos h2]
          simp only [specUnit, if_neg h0, if_neg h1, if_pos h2, scaledValue, unitName]
        · rw [if_neg h2, human_size_go]
          by_cases h3 : (n:ℚ)/1024/1024/1024 < 1024
          · rw [if_pos h3]
            simp only [specUnit, if_neg h0, if_neg h1, if_neg h2, if_pos h3,
              scaledValue, unitName]
          · rw [if_neg h3, human_size_go]
            simp only [specUnit, if_neg h0, if_neg h1, if_neg h2, if_neg h3,
              scaledValue, unitName]
  · intro h4
    have hq : (1099511627776:ℚ) ≤ (n:ℚ) := by exact_mod_cast h4
    have h3 : ¬ ((n:ℚ)/1024/1024/1024 < 1024) := by
      intro hc
      rw [div_lt_iff hp, div_lt_iff hp, div_lt_iff hp] at hc
      norm_num at hc
      linarith
    have h2 : ¬ ((n:ℚ)/1024/1024 < 1024) := by
      intro hc
      rw [div_lt_iff hp, div_lt_iff hp] at hc
      norm_num at hc
      linarith
    have h1 : ¬ ((n:ℚ)/1024 < 1024) := by
      intro hc
      rw [div_lt_iff hp] at hc
      norm_num at hc
      linarith
    have h0 : ¬ ((n:ℚ) < 1024) := by
      intro hc
      linarith
    rw [human_size, human_size_go, if_neg h0, human_size_go, if_neg h1,
      human_size_go, if_neg h2, human_size_go, if_neg h3, human_size_go]
  · have h : ((500:ℤ):ℚ) < 1024 := by norm_num
    rw [human_size, human_size_go, if_pos h]
    have h2 : roundHalfEven ((((500:ℤ):ℚ)) * 10) = 5000 := by
      unfold roundHalfEven
      norm_num
    rw [formatFix1, h2]
    decide
  · have h : ¬ (((2048:ℤ):ℚ) < 1024) := by norm_num
    have h2 : ((2048:ℤ):ℚ) / 1024 < 1024 := by norm_num
    rw [human_size, human_size_go, if_neg h, human_size_go, if_pos h2]
    have h3 : roundHalfEven ((((2048:ℤ):ℚ)) / 1024 * 10) = 20 := by
      unfold roundHalfEven
      norm_num
    rw [formatFix1, h3]
    decide

/-- Witness for C8: concrete instantiations at 500, 2048 and 1024⁴ bytes. -/
theorem c8_witness :
    (0:ℤ) ≤ 500 ∧ human_size 500 = "500.0 B" ∧ human_size 2048 = "2.0 KB" ∧
    (0:ℤ) ≤ 1099511627776 ∧ (1099511627776:ℤ) ≤ 1099511627776 ∧
    human_size 1099511627776 =
      formatFix1 (((1099511627776:ℤ):ℚ)/1024/1024/1024/1024) ++ " " ++ "TB" :=
  ⟨by decide, (c8_human_size 500 (by decide)).2.2.1,
   (c8_human_size 500 (by decide)).2.2.2,
   by decide, by decide,
   (c8_human_size 1099511627776 (by decide)).2.1 (by decide)⟩

/-- Claim C9: the pre-write duplicate gate calls the duplicate predicate with
an absent perceptual hash, so it fires exactly on a content-hash hit: on a hit
the candidate is dropped with no file effects, otherwise the pipeline
continues past the gate — a perceptual-hash match alone can never cause the
pre-write drop. -/
theorem c9_prewrite_dup_gate (env : FetchEnv) (candidate : Candidate)
    (cfg : Config) (output_dir : String) (existing_hashes : List String)
    (now : String) (url : String) (data : List ℕ)
    (hurl : candidate.direct_url = some url)
    (hget : env.httpGet url = Except.ok data) :
    (is_duplicate existing_hashes (env.sha256Of data) none = true ↔
      env.sha256Of data ∈ existing_hashes) ∧
    (env.sha256Of data ∈ existing_hashes →
      download_candidate env candidate cfg output_dir existing_hashes now =
        ⟨Except.ok none, [], existing_hashes⟩) ∧
    (env.sha256Of data ∉ existing_hashes →
      download_candidate env candidate cfg output_dir existing_hashes now =
        afterDupCheck env candidate cfg output_dir existing_hashes now data
          (env.sha256Of data)) := by
  refine ⟨by simp [is_duplicate], ?_, ?_⟩
  · intro hmem
    simp [download_candidate, hurl, hget, is_duplicate, hmem]
  · intro hmem
    simp [download_candidate, hurl, hget, is_duplicate, hmem]

/-- Witness for C9: at a concrete environment and candidate, a content-hash
hit drops the candidate with no effects, and a fresh hash continues into the
rest of the pipeline. -/
theorem c9_witness :
    fetchCand.direct_url = some "u" ∧
    fetchEnvOk.httpGet "u" = Except.ok [1, 2, 3] ∧
    download_candidate fetchEnvOk fetchCand fetchCfg "out" ["deadbeef"] "now" =
      ⟨Except.ok none, [], ["deadbeef"]⟩ ∧
    download_candidate fetchEnvOk fetchCand fetchCfg "out" [] "now" =
      afterDupCheck fetchEnvOk fetchCand fetchCfg "out" [] "now" [1, 2, 3] "deadbeef" :=
  ⟨rfl, rfl,
   (c9_prewrite_dup_gate fetchEnvOk fetchCand fetchCfg "out" ["deadbeef"] "now"
      "u" [1, 2, 3] rfl rfl).2.1 (by simp [fetchEnvOk]),
   (c9_prewrite_dup_gate fetchEnvOk fetchCand fetchCfg "out" [] "now"
      "u" [1, 2, 3] rfl rfl).2.2 (by simp [fetchEnvOk])⟩

/-- Claim C10: with both image dimensions positive, `evaluate_suitability`
reaches the unguarded division by the target height, so it returns a result
(rather than the division-by-zero error) if and only if the target height is
non-zero. -/
theorem c10_target_height_total (iw ih tw th : ℤ) (tolerance : ℚ)
    (allow_crop allow_upscale : Bool) (hiw : 0 < iw) (hih : 0 < ih) :
    (∃ r, evaluate_suitability (iw, ih) (tw, th) tolerance allow_crop allow_upscale =
      Except.ok r) ↔ th ≠ 0 := by
  have hguard : ¬(iw ≤ 0 ∨ ih ≤ 0) := by omega
  have hihz : ih ≠ 0 := by omega
  by_cases hth : th = 0
  · simp only [evaluate_suitability, aspect_ratio, if_neg hguard, if_neg hihz, if_pos hth]
    simp [hth]
  · simp only [evaluate_suitability, aspect_ratio, if_neg hguard, if_neg hihz, if_neg hth]
    simp only [hth, ne_eq, not_false_iff, iff_true]
    split
    · exact ⟨_, rfl⟩
    · split
      · exact ⟨_, rfl⟩
      · split
        · exact ⟨_, rfl⟩
        · exact ⟨_, rfl⟩

/-- Witness for C10: at image (1, 1), target (1, 1), both hypotheses hold and a
result exists since the target height 1 is non-zero. -/
theorem c10_witness :
    (0:ℤ) < 1 ∧ (0:ℤ) < 1 ∧
    ((∃ r, evaluate_suitability (1, 1) (1, 1) 0 true false = Except.ok r) ↔ (1:ℤ) ≠ 0) :=
  ⟨by decide, by decide,
   c10_target_height_total 1 1 1 1 0 true false (by decide) (by decide)⟩

end WallpaperBot
